import Mathlib

/-!
Verification of the ExplainX Telegram bot (`src/main.py`) against its
natural-language specification.

The bot's persistent state is one SQL table `users(id BIGINT PRIMARY KEY,
joined BOOLEAN DEFAULT FALSE)`.  We embed it as an association list from
user id to the `joined` flag; the primary key makes ids unique in any
reachable store, but all theorems are stated over arbitrary stores unless
uniqueness is needed.  Handlers are embedded as pure functions from the
store and the request data to the new store plus a list of `Effect`s, the
observable actions the Python coroutines perform (replies, message edits,
generation-API calls, per-recipient broadcast sends, audit-log emissions).
External collaborators (chat-platform membership query, generation API,
per-recipient delivery success) enter as explicit parameters carrying
their observed outcome.
-/

set_option autoImplicit false

namespace ExplainX

/-- The `users` table: each entry is `(id, joined)`.  `id` is a `BIGINT`
(modelled as `Int`), `joined` a `BOOLEAN`. -/
abbrev Store := List (Int × Bool)

/-- `SELECT joined FROM users WHERE id=$1` — the row for `uid`, if any.
The primary key guarantees at most one row; on an arbitrary list we take
the first match, as the reachable (duplicate-free) stores do. -/
def lookupUser : Store → Int → Option Bool
  | [], _ => none
  | (i, j) :: rest, uid => if i = uid then some j else lookupUser rest uid

/-- `add_user` (main.py lines 43-49):
`INSERT INTO users (id, joined) VALUES ($1, FALSE) ON CONFLICT (id) DO NOTHING`.
If a row for `uid` exists, nothing happens; otherwise a row
`(uid, false)` is inserted. -/
def addUser (s : Store) (uid : Int) : Store :=
  match lookupUser s uid with
  | some _ => s
  | none => s ++ [(uid, false)]

/-- `update_join` (main.py lines 51-54):
`UPDATE users SET joined = TRUE WHERE id=$1`.
Every row whose id is `uid` gets `joined := true`; if no row matches, the
statement affects nothing (no insert). -/
def updateJoin (s : Store) (uid : Int) : Store :=
  s.map (fun p => if p.1 = uid then (p.1, true) else p)

/-- `is_joined` (main.py lines 56-60): fetch the row for `uid` and return
its `joined` flag, or `False` when no row exists
(`row["joined"] if row else False`). -/
def isJoined (s : Store) (uid : Int) : Bool :=
  (lookupUser s uid).getD false

/-- `get_all_users` (main.py lines 62-66): `SELECT id FROM users`,
returning the list of ids. -/
def getAllUsers (s : Store) : List Int :=
  s.map Prod.fst

/-- Python string slicing `s[:n]` over code points (Python strings index
by code point, as Lean `String.data` does). -/
def pyTake (n : Nat) (s : String) : String :=
  ⟨s.data.take n⟩

/-- Python `str.split()` with no separator, on a list of characters:
split on runs of whitespace, discarding empty pieces.  `acc` is the
current token, reversed.  This is how `python-telegram-bot` produces
`context.args` from the message text. -/
def pySplitAux : List Char → List Char → List String
  | [], [] => []
  | [], acc => [⟨acc.reverse⟩]
  | c :: cs, acc =>
    if c.isWhitespace then
      match acc with
      | [] => pySplitAux cs []
      | _ => (⟨acc.reverse⟩ : String) :: pySplitAux cs []
    else pySplitAux cs (c :: acc)

/-- Python `raw.split()`: whitespace tokenisation discarding empties. -/
def pySplit (raw : String) : List String :=
  pySplitAux raw.data []

/-- The observable actions a handler performs.  `reply` is
`update.message.reply_text` without extra UI; `joinUI` is the
"Please join our channel" reply carrying the Join-Channel link and the
"I've Joined" `check_join` callback button; `editMessage` is
`query.message.edit_text`; `callbackAlert` is `query.answer(..., show_alert)`;
`memberCheck` is a call to `is_member` (the live channel-membership query);
`genCall` is `client.chat.completions.create`; `logEmit` is the message
actually sent to the log channel by `send_log`; `sendAttempt` is one
`context.bot.send_message` delivery attempt of the broadcast loop;
`fetchUsers` is the `get_all_users` bulk read. -/
inductive Effect where
  | reply (text : String)
  | joinUI (text : String)
  | editMessage (text : String)
  | callbackAlert (text : String)
  | memberCheck (uid : Int)
  | genCall (model system prompt : String)
  | logEmit (text : String)
  | sendAttempt (uid : Int) (text : String)
  | fetchUsers
  deriving DecidableEq, Repr

/-- `build_explain_prompt` (main.py lines 69-89): the explain template,
embedding the raw user text verbatim. -/
def build_explain_prompt (user_text : String) : String :=
  "\nYou are an expert explainer. Explain the following text at three levels:\n\n🔹 Basic — like for a 5-year-old  \n🔸 Intermediate — like for a college student  \n🔶 Advanced — for professionals  \n\nFormat:\n\n🔹 *Basic explanation:*  \n<text>\n\n🔸 *Intermediate explanation:*  \n<text>\n\n🔶 *Advanced explanation:*  \n<text>\n\nText:\n\"\"\""
    ++ user_text ++ "\"\"\""

/-- `build_prompt_refiner` (main.py lines 91-109): the prompt-refine
template, embedding the raw user text verbatim. -/
def build_prompt_refiner (user_text : String) : String :=
  "\nYou are a world-class prompt engineer.\n\nTask: Take the raw prompt and transform it into a highly detailed, structured, and optimized prompt.\n\nFollow the rules:\n1. Clarify the intent behind the original prompt.\n2. Expand with context, constraints, and details.\n3. Assign a clear role (expert teacher, senior developer, designer, etc.).\n4. Give step-by-step instructions with measurable outcomes.\n5. Make it professional, unambiguous, and future-proof.\n\n⚠️ Output format (strictly follow, no extra text, no duplication):\n\n- **Original Prompt**: "
    ++ user_text
    ++ "\n\n- **Refined Prompt**: <ultra high-level upgraded version>\n"

/-- Head of the `send_log` message up to and including `📥 Input:\n`
(main.py lines 115-119): user mention, user id, command name. -/
def logHead (mention idStr command : String) : String :=
  "👤 User: " ++ mention ++ "\n🆔 ID: `" ++ idStr ++ "`\n💬 Command: `"
    ++ command ++ "`\n📥 Input:\n"

/-- Tail of the `send_log` message: `\n\n📤 Output:\n` followed by the
(already truncated) output text (main.py line 120). -/
def logTail (answer : String) : String :=
  "\n\n📤 Output:\n" ++ answer

/-- `send_log` (main.py lines 112-125).  When `LOG_CHANNEL == 0` it
returns at once and nothing is emitted; otherwise it emits one message
built from the user mention, id, command, the input text untruncated and
the output truncated to its first 3500 characters (`answer[:3500]`).
A transport failure of the emission itself is swallowed (printed only),
so the emission is the only observable outcome. -/
def sendLog (logChannel : Int) (mention idStr command user_text answer : String) :
    Option String :=
  if logChannel = 0 then none
  else some (logHead mention idStr command ++ user_text
    ++ logTail (pyTake 3500 answer))

/-- The audit-log effects of one `await send_log(...)` call: one
`logEmit` when the log channel is configured, none otherwise. -/
def auditEffects (logChannel : Int) (mention idStr command user_text answer : String) :
    List Effect :=
  match sendLog logChannel mention idStr command user_text answer with
  | some msg => [Effect.logEmit msg]
  | none => []

/-- `EXPLAIN_MODEL` (main.py line 26). -/
def EXPLAIN_MODEL : String := "gpt-3.5-turbo"

/-- `PROMPT_MODEL` (main.py line 27). -/
def PROMPT_MODEL : String := "gpt-3.5-turbo"

/-- The join-gate reply text (main.py lines 162, 183, 219). -/
def joinPromptText : String := "⚠️ Please join our channel to use the bot."

/-- `start`'s welcome reply for already-joined users (main.py lines 147-154). -/
def welcomeText : String :=
  "👋 *Welcome back!*\n\nI can break down complex text or help you craft better prompts.\n\n📌 *Commands:*\n• `/explain <text>` → Multi-level explanations.\n• `/prompt <idea>` → Get polished prompt.\n\nMade with ❤️ by [Swayam](https://t.me/regnis)"

/-- `check_join`'s success edit (main.py line 171). -/
def thanksText : String := "✅ Thanks for joining! Type /start again 🎉"

/-- `check_join`'s transient failure alert (main.py line 173). -/
def notJoinedAlert : String := "❌ You haven't joined yet!"

/-- `explain`'s usage reply (main.py line 191). -/
def explainUsageText : String := "❗ Usage: `/explain your_text_here`"

/-- `prompt_refiner`'s usage reply (main.py line 227). -/
def promptUsageText : String := "❗ Usage: `/prompt your_idea_here`"

/-- `broadcast`'s usage reply (main.py line 253). -/
def broadcastUsageText : String := "❗ Usage: `/broadcast your_message`"

/-- `broadcast`'s authorization-denied reply (main.py line 250). -/
def notAuthorizedText : String := "❌ You are not authorized."

/-- `broadcast`'s final counter report (main.py line 265). -/
def broadcastReport (sent failed : Nat) : String :=
  "📢 Broadcast complete!\n✅ Sent: " ++ toString sent ++ "\n⚠️ Failed: "
    ++ toString failed

/-- The access gate's verdict on a gated command. -/
inductive GateResult where
  | allowed
  | denied
  deriving DecidableEq, Repr

/-- The access-gate evaluation as inlined in `explain` and
`prompt_refiner` (main.py lines 177, 213): read the stored `joined` flag
via `is_joined` and allow exactly when it is true.  No live membership
query occurs here, and no record is created. -/
def evaluate (s : Store) (uid : Int) : GateResult :=
  if isJoined s uid then GateResult.allowed else GateResult.denied

/-- `start` (main.py lines 142-164): register the user (create-if-absent
via `add_user`), then reply with the welcome text if joined, else with
the join UI. -/
def startHandler (s : Store) (uid : Int) : Store × List Effect :=
  let s' := addUser s uid
  if isJoined s' uid then (s', [Effect.reply welcomeText])
  else (s', [Effect.joinUI joinPromptText])

/-- `check_join` (main.py lines 166-173): query live membership via
`is_member` (whose observed, error-folded result is `live`); if member,
run `update_join` and edit the message to the success text, else leave
the store untouched and show a transient alert. -/
def checkJoinHandler (s : Store) (uid : Int) (live : Bool) : Store × List Effect :=
  if live then
    (updateJoin s uid, [Effect.memberCheck uid, Effect.editMessage thanksText])
  else
    (s, [Effect.memberCheck uid, Effect.callbackAlert notJoinedAlert])

/-- `explain` (main.py lines 175-209).  Gate on `is_joined` only (no
`add_user`, no `is_member`); compute `user_text` from `context.args`, or
from the raw message body when there are no args (the bare-text entry
point); usage error when it is empty or starts with `/explain`;
otherwise one generation call whose observed outcome is `genResult`
(`.error e` models a raised exception rendered by `f"⚠️ Error: {e}"`),
then the reply and one `send_log` call, both on success and on error. -/
def explainHandler (s : Store) (uid : Int) (mention idStr : String)
    (args : List String) (msgText : String) (genResult : Except String String)
    (logChannel : Int) : Store × List Effect :=
  if isJoined s uid = false then
    (s, [Effect.joinUI joinPromptText])
  else
    let user_text := if args.isEmpty then msgText else String.intercalate " " args
    if user_text = "" ∨ user_text.startsWith "/explain" = true then
      (s, [Effect.reply explainUsageText])
    else
      let answer := match genResult with
        | Except.ok a => a
        | Except.error e => "⚠️ Error: " ++ e
      (s, [Effect.genCall EXPLAIN_MODEL "You explain at multiple levels clearly."
              (build_explain_prompt user_text),
           Effect.reply answer]
          ++ auditEffects logChannel mention idStr "explain" user_text answer)

/-- `prompt_refiner` (main.py lines 211-245).  Same gate as `explain`;
`user_text = " ".join(context.args)`; usage error when empty; otherwise
one generation call; on success the reply is the stripped model output
(Python `.strip()`, modelled by `String.trim`), on error the
error-marker text; one `send_log` call in both cases. -/
def promptHandler (s : Store) (uid : Int) (mention idStr : String)
    (args : List String) (genResult : Except String String)
    (logChannel : Int) : Store × List Effect :=
  if isJoined s uid = false then
    (s, [Effect.joinUI joinPromptText])
  else
    let user_text := String.intercalate " " args
    if user_text = "" then
      (s, [Effect.reply promptUsageText])
    else
      let answer := match genResult with
        | Except.ok a => a.trim
        | Except.error e => "⚠️ Error: " ++ e
      (s, [Effect.genCall PROMPT_MODEL
              "You are a world-class prompt engineer. Always return in the strict format."
              (build_prompt_refiner user_text),
           Effect.reply answer]
          ++ auditEffects logChannel mention idStr "prompt" user_text answer)

/-- `broadcast` (main.py lines 247-265).  Non-admin issuers get the
authorization-denied reply and nothing else; empty args a usage reply;
otherwise one `get_all_users` fetch, then one `send_message` attempt per
listed id in order (`deliverOk` is the observed per-recipient outcome;
a failure is caught and counted, never aborting the loop), and a final
reply reporting both counters. -/
def broadcastHandler (s : Store) (issuer adminId : Int) (args : List String)
    (deliverOk : Int → Bool) : Store × List Effect :=
  if issuer ≠ adminId then
    (s, [Effect.reply notAuthorizedText])
  else if args.isEmpty then
    (s, [Effect.reply broadcastUsageText])
  else
    let message := String.intercalate " " args
    let users := getAllUsers s
    let sent := (users.filter (fun u => deliverOk u)).length
    let failed := (users.filter (fun u => !deliverOk u)).length
    (s, Effect.fetchUsers :: users.map (fun u => Effect.sendAttempt u message)
        ++ [Effect.reply (broadcastReport sent failed)])

/-- The operations this system ever performs on the User Store: `register`
is `add_user` (from `/start`), `markVerified` is `update_join` (from
`check_join`), `gateRead` is `is_joined` (pure read), `listAll` is
`get_all_users` (pure read).  No delete statement exists anywhere in
main.py. -/
inductive Op where
  | register (uid : Int)
  | markVerified (uid : Int)
  | gateRead (uid : Int)
  | listAll
  deriving DecidableEq, Repr

/-- Effect of one operation on the store. -/
def applyOp (s : Store) : Op → Store
  | Op.register uid => addUser s uid
  | Op.markVerified uid => updateJoin s uid
  | Op.gateRead _ => s
  | Op.listAll => s

/-- Run a sequence of store operations. -/
def runOps (s : Store) (ops : List Op) : Store :=
  ops.foldl applyOp s

theorem lookupUser_append (s t : Store) (uid : Int) :
    lookupUser (s ++ t) uid =
      match lookupUser s uid with
      | some j => some j
      | none => lookupUser t uid := by
  induction s with
  | nil => simp [lookupUser]
  | cons p rest ih =>
    obtain ⟨i, j⟩ := p
    by_cases h : i = uid <;> simp [lookupUser, h, ih]

theorem lookupUser_addUser (s : Store) (u uid : Int) :
    lookupUser (addUser s u) uid =
      match lookupUser s uid with
      | some j => some j
      | none => if u = uid then some false else none := by
  unfold addUser
  cases hu : lookupUser s u with
  | some j =>
    cases h : lookupUser s uid with
    | some j' => simp
    | none =>
      by_cases huu : u = uid
      · subst huu; rw [hu] at h; exact absurd h (by simp)
      · simp [huu]
  | none =>
    rw [lookupUser_append]
    cases h : lookupUser s uid with
    | some j' => simp
    | none => simp [lookupUser]

theorem lookupUser_updateJoin (s : Store) (u uid : Int) :
    lookupUser (updateJoin s u) uid =
      (lookupUser s uid).map (fun j => if uid = u then true else j) := by
  induction s with
  | nil => simp [updateJoin, lookupUser]
  | cons p rest ih =>
    obtain ⟨i, j⟩ := p
    show lookupUser ((if i = u then (i, true) else (i, j)) :: updateJoin rest u) uid
        = (lookupUser ((i, j) :: rest) uid).map (fun j => if uid = u then true else j)
    by_cases hi : i = u
    · rw [if_pos hi]
      simp only [lookupUser]
      by_cases hu : i = uid
      · have huu : uid = u := hu ▸ hi
        rw [if_pos hu, if_pos hu]
        simp [huu]
      · rw [if_neg hu, if_neg hu]
        exact ih
    · rw [if_neg hi]
      simp only [lookupUser]
      by_cases hu : i = uid
      · have huu : ¬uid = u := fun h => hi (hu.symm ▸ h)
        rw [if_pos hu, if_pos hu]
        simp [huu]
      · rw [if_neg hu, if_neg hu]
        exact ih

theorem isJoined_applyOp_mono (s : Store) (op : Op) (uid : Int)
    (h : isJoined s uid = true) : isJoined (applyOp s op) uid = true := by
  cases op with
  | register u =>
    unfold isJoined at h ⊢
    simp only [applyOp, lookupUser_addUser]
    cases hl : lookupUser s uid with
    | some j => simp [hl] at h; simp [h]
    | none => simp [hl] at h
  | markVerified u =>
    unfold isJoined at h ⊢
    simp only [applyOp, lookupUser_updateJoin]
    cases hl : lookupUser s uid with
    | some j => simp [hl] at h; simp [h]
    | none => simp [hl] at h
  | gateRead _ => exact h
  | listAll => exact h

theorem lookupUser_applyOp_isSome (s : Store) (op : Op) (uid : Int)
    (h : (lookupUser s uid).isSome) : (lookupUser (applyOp s op) uid).isSome := by
  cases op with
  | register u =>
    simp only [applyOp, lookupUser_addUser]
    cases hl : lookupUser s uid with
    | some j => simp
    | none => simp [hl] at h
  | markVerified u =>
    simp only [applyOp, lookupUser_updateJoin]
    cases hl : lookupUser s uid with
    | some j => simp
    | none => simp [hl] at h
  | gateRead _ => exact h
  | listAll => exact h

theorem isJoined_runOps_mono (s : Store) (ops : List Op) (uid : Int)
    (h : isJoined s uid = true) : isJoined (runOps s ops) uid = true := by
  induction ops generalizing s with
  | nil => exact h
  | cons op rest ih =>
    exact ih (applyOp s op) (isJoined_applyOp_mono s op uid h)

theorem lookupUser_runOps_isSome (s : Store) (ops : List Op) (uid : Int)
    (h : (lookupUser s uid).isSome) : (lookupUser (runOps s ops) uid).isSome := by
  induction ops generalizing s with
  | nil => exact h
  | cons op rest ih =>
    exact ih (applyOp s op) (lookupUser_applyOp_isSome s op uid h)

theorem pySplitAux_whitespace (cs : List Char)
    (h : ∀ c ∈ cs, c.isWhitespace = true) : pySplitAux cs [] = [] := by
  induction cs with
  | nil => rfl
  | cons c rest ih =>
    have hc : c.isWhitespace = true := h c (List.mem_cons_self c rest)
    simp only [pySplitAux, hc, if_pos]
    exact ih (fun c' hc' => h c' (List.mem_cons_of_mem _ hc'))

theorem pySplit_whitespace (raw : String)
    (h : ∀ c ∈ raw.data, c.isWhitespace = true) : pySplit raw = [] :=
  pySplitAux_whitespace raw.data h

theorem updateJoin_idem (s : Store) (u : Int) :
    updateJoin (updateJoin s u) u = updateJoin s u := by
  induction s with
  | nil => rfl
  | cons p rest ih =>
    obtain ⟨i, j⟩ := p
    show (fun p => if p.1 = u then (p.1, true) else p)
          ((fun p => if p.1 = u then (p.1, true) else p) (i, j)) :: updateJoin (updateJoin rest u) u
        = (if i = u then (i, true) else (i, j)) :: updateJoin rest u
    rw [ih]
    by_cases hi : i = u
    · simp [hi]
    · simp [hi]

theorem explainHandler_store (s : Store) (uid : Int) (m i : String)
    (args : List String) (msg : String) (g : Except String String) (lc : Int) :
    (explainHandler s uid m i args msg g lc).1 = s := by
  unfold explainHandler
  dsimp only
  repeat' split
  all_goals rfl

theorem promptHandler_store (s : Store) (uid : Int) (m i : String)
    (args : List String) (g : Except String String) (lc : Int) :
    (promptHandler s uid m i args g lc).1 = s := by
  unfold promptHandler
  dsimp only
  repeat' split
  all_goals rfl

/-- The user-visible (non-audit) effects: everything but `logEmit`. -/
def nonLogEffects (es : List Effect) : List Effect :=
  es.filter (fun e => match e with | Effect.logEmit _ => false | _ => true)

/-- Recogniser for broadcast delivery attempts. -/
def isSendAttempt : Effect → Bool
  | Effect.sendAttempt _ _ => true
  | _ => false

theorem nonLogEffects_auditEffects (lc : Int) (m i c t a : String) :
    nonLogEffects (auditEffects lc m i c t a) = [] := by
  unfold auditEffects
  cases h : sendLog lc m i c t a with
  | some msg => simp [nonLogEffects]
  | none => simp [nonLogEffects]

theorem auditEffects_zero (m i c t a : String) : auditEffects 0 m i c t a = [] := by
  simp [auditEffects, sendLog]

theorem auditEffects_ne_zero (lc : Int) (hlc : lc ≠ 0) (m i c t a : String) :
    auditEffects lc m i c t a
      = [Effect.logEmit (logHead m i c ++ t ++ logTail (pyTake 3500 a))] := by
  simp [auditEffects, sendLog, hlc]

theorem isJoined_applyOp_false (s : Store) (op : Op) (uid : Int)
    (hop : op ≠ Op.markVerified uid) (h : isJoined s uid = false) :
    isJoined (applyOp s op) uid = false := by
  cases op with
  | register u =>
    unfold isJoined at h ⊢
    simp only [applyOp, lookupUser_addUser]
    cases hl : lookupUser s uid with
    | some j => simp [hl] at h; simp [h]
    | none =>
      by_cases hu : u = uid
      · simp [hu]
      · simp [hu]
  | markVerified u =>
    have hu : uid ≠ u := fun hh => hop (by rw [hh])
    unfold isJoined at h ⊢
    simp only [applyOp, lookupUser_updateJoin]
    cases hl : lookupUser s uid with
    | some j => simp [hl] at h; simp [h, hu]
    | none => simp [hl] at h ⊢
  | gateRead _ => exact h
  | listAll => exact h

theorem isJoined_runOps_false (s : Store) (ops : List Op) (uid : Int)
    (hops : Op.markVerified uid ∉ ops) (h : isJoined s uid = false) :
    isJoined (runOps s ops) uid = false := by
  induction ops generalizing s with
  | nil => exact h
  | cons op rest ih =>
    have h1 : op ≠ Op.markVerified uid := fun hh => hops (by rw [hh]; exact List.mem_cons_self _ _)
    have h2 : Op.markVerified uid ∉ rest := fun hh => hops (List.mem_cons_of_mem _ hh)
    exact ih (applyOp s op) h2 (isJoined_applyOp_false s op uid h1 h)

/-- C1 (counterexample): a first-time user (empty store, id 7) issuing the
gated `/explain hello` command gets the access gate evaluated, yet no User
Store record is created for them — `add_user` is never called on the gated
path, refuting "after any first-time user's first interaction with any
entry point, a record for that user exists in the store". -/
theorem C1_counterexample :
    lookupUser (explainHandler [] 7 "u" "7" ["hello"] "" (Except.ok "ans") 0).1 7 = none
      ∧ lookupUser (promptHandler [] 7 "u" "7" ["hello"] (Except.ok "ans") 0).1 7 = none := by
  constructor <;> rfl

/-- C1 (amended): only `/start` ensures a User Store record exists
(create-if-absent with `joined=false`, never overwriting an existing
record) before reading the `joined` flag; the gated commands read the flag
directly, treat a missing record as `joined=false`, and create no record
— so after a first-time user's first interaction a record exists exactly
when the entry point was `/start`. -/
theorem C1_amended_registration (s : Store) (uid : Int) (m i : String)
    (args : List String) (msg : String) (g : Except String String) (lc : Int) :
    (lookupUser (startHandler s uid).1 uid).isSome = true ∧
    (lookupUser s uid = none → lookupUser (startHandler s uid).1 uid = some false) ∧
    (∀ j, lookupUser s uid = some j → lookupUser (startHandler s uid).1 uid = some j) ∧
    (lookupUser s uid = none → isJoined s uid = false) ∧
    (explainHandler s uid m i args msg g lc).1 = s ∧
    (promptHandler s uid m i args g lc).1 = s := by
  have hstore : (startHandler s uid).1 = addUser s uid := by
    unfold startHandler
    dsimp only
    split <;> rfl
  refine ⟨?_, ?_, ?_, ?_, explainHandler_store s uid m i args msg g lc,
    promptHandler_store s uid m i args g lc⟩
  · rw [hstore, lookupUser_addUser]
    cases hl : lookupUser s uid with
    | some j => simp
    | none => simp
  · intro h
    rw [hstore, lookupUser_addUser, h]
    simp
  · intro j h
    rw [hstore, lookupUser_addUser, h]
  · intro h
    unfold isJoined
    rw [h]
    rfl

/-- C1 (amended, witness): concrete first contact of user 3 via `/start`
on the empty store. -/
theorem C1_amended_registration_witness :
    (lookupUser (startHandler [] 3).1 3).isSome = true ∧
    (lookupUser [] 3 = none → lookupUser (startHandler [] 3).1 3 = some false) ∧
    (∀ j, lookupUser [] 3 = some j → lookupUser (startHandler [] 3).1 3 = some j) ∧
    (lookupUser [] 3 = none → isJoined [] 3 = false) ∧
    (explainHandler [] 3 "u" "3" ["x"] "" (Except.ok "a") 0).1 = [] ∧
    (promptHandler [] 3 "u" "3" ["x"] (Except.ok "a") 0).1 = [] :=
  C1_amended_registration [] 3 "u" "3" ["x"] "" (Except.ok "a") 0

/-- C2 (counterexample): user 5 has no User Store record (reachable:
first contact via a gated command shows the join UI without registering,
see C1).  `check_join` with the verifier reporting membership runs
`UPDATE users SET joined=TRUE WHERE id=5`, which affects zero rows, so no
record ends with `joined=true` and a subsequent access-gate evaluation
still returns `Denied` — even though the UI is transitioned to the
success message. -/
theorem C2_counterexample :
    isJoined (checkJoinHandler [] 5 true).1 5 = false ∧
    evaluate (checkJoinHandler [] 5 true).1 5 = GateResult.denied ∧
    Effect.editMessage thanksText ∈ (checkJoinHandler [] 5 true).2 := by
  refine ⟨rfl, rfl, ?_⟩
  simp [checkJoinHandler, updateJoin]

/-- C2 (amended): for every user for whom a User Store record exists
(e.g. one created by `/start`), when `check_join` runs and the Membership
Verifier reports the user as a channel member, the record ends with
`joined=true`, a subsequent access-gate evaluation returns `Allowed`, and
the presented UI is transitioned to the success message; for a user with
no record the UI still transitions but the store is left without a
`joined=true` record. -/
theorem C2_amended_check_join (s : Store) (uid : Int)
    (h : (lookupUser s uid).isSome = true) :
    isJoined (checkJoinHandler s uid true).1 uid = true ∧
    evaluate (checkJoinHandler s uid true).1 uid = GateResult.allowed ∧
    Effect.editMessage thanksText ∈ (checkJoinHandler s uid true).2 := by
  have h1 : (checkJoinHandler s uid true).1 = updateJoin s uid := rfl
  have hj : isJoined (updateJoin s uid) uid = true := by
    unfold isJoined
    rw [lookupUser_updateJoin]
    cases hl : lookupUser s uid with
    | some j => simp
    | none => rw [hl] at h; simp at h
  refine ⟨h1 ▸ hj, ?_, ?_⟩
  · unfold evaluate
    rw [h1, hj]
    rfl
  · simp [checkJoinHandler]

/-- C2 (amended, witness): user 5 with an existing `joined=false` record,
verifier reports membership. -/
theorem C2_amended_check_join_witness :
    isJoined (checkJoinHandler [((5 : Int), false)] 5 true).1 5 = true ∧
    evaluate (checkJoinHandler [((5 : Int), false)] 5 true).1 5 = GateResult.allowed ∧
    Effect.editMessage thanksText ∈ (checkJoinHandler [((5 : Int), false)] 5 true).2 :=
  C2_amended_check_join [(5, false)] 5 (by decide)

/-- C9: after a recheck with the verifier reporting membership, running
`check_join` a second time under the same verifier answer leaves the User
Store unchanged, produces the same effects (no error path: the handler is
total, `UPDATE .. SET joined=TRUE` is idempotent), and `joined` stays
true whenever the first run left it true. -/
theorem C9_check_join_idempotent (s : Store) (uid : Int) :
    (checkJoinHandler (checkJoinHandler s uid true).1 uid true).1
        = (checkJoinHandler s uid true).1 ∧
    (checkJoinHandler (checkJoinHandler s uid true).1 uid true).2
        = (checkJoinHandler s uid true).2 ∧
    (isJoined (checkJoinHandler s uid true).1 uid = true →
      isJoined (checkJoinHandler (checkJoinHandler s uid true).1 uid true).1 uid = true) := by
  have h1 : (checkJoinHandler (checkJoinHandler s uid true).1 uid true).1
      = (checkJoinHandler s uid true).1 := updateJoin_idem s uid
  exact ⟨h1, rfl, fun h => by rw [h1]; exact h⟩

/-- C9 (witness): user 2 with an existing `joined=false` record. -/
theorem C9_check_join_idempotent_witness :
    (checkJoinHandler (checkJoinHandler [((2 : Int), false)] 2 true).1 2 true).1
        = (checkJoinHandler [((2 : Int), false)] 2 true).1 ∧
    (checkJoinHandler (checkJoinHandler [((2 : Int), false)] 2 true).1 2 true).2
        = (checkJoinHandler [((2 : Int), false)] 2 true).2 ∧
    (isJoined (checkJoinHandler [((2 : Int), false)] 2 true).1 2 = true →
      isJoined (checkJoinHandler (checkJoinHandler [((2 : Int), false)] 2 true).1 2 true).1 2
        = true) :=
  C9_check_join_idempotent [(2, false)] 2

theorem explainHandler_denied (s : Store) (uid : Int) (m i : String)
    (args : List String) (msg : String) (g : Except String String) (lc : Int)
    (h : isJoined s uid = false) :
    (explainHandler s uid m i args msg g lc).2 = [Effect.joinUI joinPromptText] := by
  simp [explainHandler, h]

theorem promptHandler_denied (s : Store) (uid : Int) (m i : String)
    (args : List String) (g : Except String String) (lc : Int)
    (h : isJoined s uid = false) :
    (promptHandler s uid m i args g lc).2 = [Effect.joinUI joinPromptText] := by
  simp [promptHandler, h]

theorem explainHandler_joined_shape (s : Store) (uid : Int) (m i : String)
    (args : List String) (msg : String) (g : Except String String) (lc : Int)
    (h : isJoined s uid = true) :
    (explainHandler s uid m i args msg g lc).2 = [Effect.reply explainUsageText] ∨
    ∃ ut ans, (explainHandler s uid m i args msg g lc).2
        = Effect.genCall EXPLAIN_MODEL "You explain at multiple levels clearly."
            (build_explain_prompt ut)
          :: Effect.reply ans :: auditEffects lc m i "explain" ut ans := by
  unfold explainHandler
  rw [if_neg (by simp [h])]
  dsimp only
  cases g with
  | ok a =>
    dsimp only
    split
    all_goals split
    all_goals first
      | exact Or.inl rfl
      | exact Or.inr ⟨_, _, rfl⟩
  | error e =>
    dsimp only
    split
    all_goals split
    all_goals first
      | exact Or.inl rfl
      | exact Or.inr ⟨_, _, rfl⟩

theorem promptHandler_joined_shape (s : Store) (uid : Int) (m i : String)
    (args : List String) (g : Except String String) (lc : Int)
    (h : isJoined s uid = true) :
    (promptHandler s uid m i args g lc).2 = [Effect.reply promptUsageText] ∨
    ∃ ut ans, (promptHandler s uid m i args g lc).2
        = Effect.genCall PROMPT_MODEL
            "You are a world-class prompt engineer. Always return in the strict format."
            (build_prompt_refiner ut)
          :: Effect.reply ans :: auditEffects lc m i "prompt" ut ans := by
  unfold promptHandler
  rw [if_neg (by simp [h])]
  dsimp only
  cases g with
  | ok a =>
    dsimp only
    split
    all_goals first
      | exact Or.inl rfl
      | exact Or.inr ⟨_, _, rfl⟩
  | error e =>
    dsimp only
    split
    all_goals first
      | exact Or.inl rfl
      | exact Or.inr ⟨_, _, rfl⟩

theorem mem_auditEffects (e : Effect) (lc : Int) (m i c t a : String)
    (h : e ∈ auditEffects lc m i c t a) : ∃ msg, e = Effect.logEmit msg := by
  unfold auditEffects at h
  cases hs : sendLog lc m i c t a <;> rw [hs] at h
  · simp at h
  · simp at h
    exact ⟨_, h⟩

theorem memberCheck_not_mem_explain (s : Store) (uid : Int) (m i : String)
    (args : List String) (msg : String) (g : Except String String) (lc : Int)
    (v : Int) : Effect.memberCheck v ∉ (explainHandler s uid m i args msg g lc).2 := by
  intro hmem
  cases hj : isJoined s uid with
  | false => rw [explainHandler_denied s uid m i args msg g lc hj] at hmem; simp at hmem
  | true =>
    rcases explainHandler_joined_shape s uid m i args msg g lc hj with hs | ⟨ut, ans, hs⟩ <;>
      rw [hs] at hmem
    · simp at hmem
    · simp at hmem
      rcases mem_auditEffects _ lc m i "explain" ut ans hmem with ⟨msg', hmsg⟩
      exact Effect.noConfusion hmsg

theorem memberCheck_not_mem_prompt (s : Store) (uid : Int) (m i : String)
    (args : List String) (g : Except String String) (lc : Int)
    (v : Int) : Effect.memberCheck v ∉ (promptHandler s uid m i args g lc).2 := by
  intro hmem
  cases hj : isJoined s uid with
  | false => rw [promptHandler_denied s uid m i args g lc hj] at hmem; simp at hmem
  | true =>
    rcases promptHandler_joined_shape s uid m i args g lc hj with hs | ⟨ut, ans, hs⟩ <;>
      rw [hs] at hmem
    · simp at hmem
    · simp at hmem
      rcases mem_auditEffects _ lc m i "prompt" ut ans hmem with ⟨msg', hmsg⟩
      exact Effect.noConfusion hmsg

theorem joinUI_not_mem_explain_joined (s : Store) (uid : Int) (m i : String)
    (args : List String) (msg : String) (g : Except String String) (lc : Int)
    (h : isJoined s uid = true) (t : String) :
    Effect.joinUI t ∉ (explainHandler s uid m i args msg g lc).2 := by
  intro hmem
  rcases explainHandler_joined_shape s uid m i args msg g lc h with hs | ⟨ut, ans, hs⟩ <;>
    rw [hs] at hmem
  · simp at hmem
  · simp at hmem
    rcases mem_auditEffects _ lc m i "explain" ut ans hmem with ⟨msg', hmsg⟩
    exact Effect.noConfusion hmsg

theorem joinUI_not_mem_prompt_joined (s : Store) (uid : Int) (m i : String)
    (args : List String) (g : Except String String) (lc : Int)
    (h : isJoined s uid = true) (t : String) :
    Effect.joinUI t ∉ (promptHandler s uid m i args g lc).2 := by
  intro hmem
  rcases promptHandler_joined_shape s uid m i args g lc h with hs | ⟨ut, ans, hs⟩ <;>
    rw [hs] at hmem
  · simp at hmem
  · simp at hmem
    rcases mem_auditEffects _ lc m i "prompt" ut ans hmem with ⟨msg', hmsg⟩
    exact Effect.noConfusion hmsg

/-- C3: a user with stored `joined=true` is allowed on the gated commands
(no join-UI reply) and the gate consults only the store — neither gated
handler ever queries live channel membership (`is_member` is never
called, so the verdict cannot depend on it); a user with stored
`joined=false` is denied (exactly the join-UI reply, nothing else, so the
pipeline stops with no generation call), and stays denied under any
further sequence of this system's store operations that does not include
the recheck action for that user. -/
theorem C3_gate_reads_store_only (s : Store) (uid : Int) (m i : String)
    (args : List String) (msg : String) (g : Except String String) (lc : Int) :
    (isJoined s uid = true →
        evaluate s uid = GateResult.allowed ∧
        Effect.joinUI joinPromptText ∉ (explainHandler s uid m i args msg g lc).2 ∧
        Effect.joinUI joinPromptText ∉ (promptHandler s uid m i args g lc).2) ∧
    (isJoined s uid = false →
        evaluate s uid = GateResult.denied ∧
        (explainHandler s uid m i args msg g lc).2 = [Effect.joinUI joinPromptText] ∧
        (promptHandler s uid m i args g lc).2 = [Effect.joinUI joinPromptText] ∧
        (∀ mo sys p, Effect.genCall mo sys p ∉ (explainHandler s uid m i args msg g lc).2) ∧
        (∀ mo sys p, Effect.genCall mo sys p ∉ (promptHandler s uid m i args g lc).2) ∧
        (∀ ops : List Op, Op.markVerified uid ∉ ops →
            evaluate (runOps s ops) uid = GateResult.denied)) ∧
    (∀ v : Int, Effect.memberCheck v ∉ (explainHandler s uid m i args msg g lc).2 ∧
        Effect.memberCheck v ∉ (promptHandler s uid m i args g lc).2) := by
  refine ⟨?_, ?_, fun v => ⟨memberCheck_not_mem_explain s uid m i args msg g lc v,
    memberCheck_not_mem_prompt s uid m i args g lc v⟩⟩
  · intro h
    exact ⟨by simp [evaluate, h],
      joinUI_not_mem_explain_joined s uid m i args msg g lc h joinPromptText,
      joinUI_not_mem_prompt_joined s uid m i args g lc h joinPromptText⟩
  · intro h
    have he := explainHandler_denied s uid m i args msg g lc h
    have hp := promptHandler_denied s uid m i args g lc h
    refine ⟨by simp [evaluate, h], he, hp, ?_, ?_, ?_⟩
    · intro mo sys p hmem
      rw [he] at hmem
      simp at hmem
    · intro mo sys p hmem
      rw [hp] at hmem
      simp at hmem
    · intro ops hops
      have := isJoined_runOps_false s ops uid hops h
      simp [evaluate, this]

/-- C3 (witness): user 4 with `joined=true` and user 9 with
`joined=false` on the store `[(4, true), (9, false)]`. -/
theorem C3_gate_reads_store_only_witness :
    (isJoined [((4 : Int), true), (9, false)] 9 = true →
        evaluate [((4 : Int), true), (9, false)] 9 = GateResult.allowed ∧
        Effect.joinUI joinPromptText
          ∉ (explainHandler [((4 : Int), true), (9, false)] 9 "u" "9" ["hi"] "" (Except.ok "a") 1).2 ∧
        Effect.joinUI joinPromptText
          ∉ (promptHandler [((4 : Int), true), (9, false)] 9 "u" "9" ["hi"] (Except.ok "a") 1).2) ∧
    (isJoined [((4 : Int), true), (9, false)] 9 = false →
        evaluate [((4 : Int), true), (9, false)] 9 = GateResult.denied ∧
        (explainHandler [((4 : Int), true), (9, false)] 9 "u" "9" ["hi"] "" (Except.ok "a") 1).2
            = [Effect.joinUI joinPromptText] ∧
        (promptHandler [((4 : Int), true), (9, false)] 9 "u" "9" ["hi"] (Except.ok "a") 1).2
            = [Effect.joinUI joinPromptText] ∧
        (∀ mo sys p, Effect.genCall mo sys p
            ∉ (explainHandler [((4 : Int), true), (9, false)] 9 "u" "9" ["hi"] "" (Except.ok "a") 1).2) ∧
        (∀ mo sys p, Effect.genCall mo sys p
            ∉ (promptHandler [((4 : Int), true), (9, false)] 9 "u" "9" ["hi"] (Except.ok "a") 1).2) ∧
        (∀ ops : List Op, Op.markVerified 9 ∉ ops →
            evaluate (runOps [((4 : Int), true), (9, false)] ops) 9 = GateResult.denied)) ∧
    (∀ v : Int, Effect.memberCheck v
        ∉ (explainHandler [((4 : Int), true), (9, false)] 9 "u" "9" ["hi"] "" (Except.ok "a") 1).2 ∧
        Effect.memberCheck v
          ∉ (promptHandler [((4 : Int), true), (9, false)] 9 "u" "9" ["hi"] (Except.ok "a") 1).2) :=
  C3_gate_reads_store_only [(4, true), (9, false)] 9 "u" "9" ["hi"] "" (Except.ok "a") 1

/-- C6: over any sequence of this system's store operations, once a
user's `joined` flag is true it never becomes false (`update_join` only
sets true, `add_user` is insert-or-ignore), a record present is present
forever (no operation deletes), and registering a user over an existing
record never changes the stored `joined` value. -/
theorem C6_store_invariants (s : Store) (ops : List Op) (uid u : Int) :
    (isJoined s uid = true → isJoined (runOps s ops) uid = true) ∧
    ((lookupUser s uid).isSome = true → (lookupUser (runOps s ops) uid).isSome = true) ∧
    (∀ j, lookupUser s uid = some j → lookupUser (addUser s u) uid = some j) := by
  refine ⟨isJoined_runOps_mono s ops uid, lookupUser_runOps_isSome s ops uid, ?_⟩
  intro j h
  rw [lookupUser_addUser, h]

/-- C6 (witness): store `[(1, true)]`, operations re-registering user 1,
marking user 2 verified, a gate read and a bulk read. -/
theorem C6_store_invariants_witness :
    (isJoined [((1 : Int), true)] 1 = true →
        isJoined (runOps [((1 : Int), true)] [Op.register 1, Op.markVerified 2,
          Op.gateRead 1, Op.listAll]) 1 = true) ∧
    ((lookupUser [((1 : Int), true)] 1).isSome = true →
        (lookupUser (runOps [((1 : Int), true)] [Op.register 1, Op.markVerified 2,
          Op.gateRead 1, Op.listAll]) 1).isSome = true) ∧
    (∀ j, lookupUser [((1 : Int), true)] 1 = some j →
        lookupUser (addUser [((1 : Int), true)] 1) 1 = some j) :=
  C6_store_invariants [(1, true)] [Op.register 1, Op.markVerified 2,
    Op.gateRead 1, Op.listAll] 1 1

/-- C4: for an allowed request whose computed input text passes the usage
guard, when the generation call raises error `e` the handler still replies
with the error marker `⚠️ Error: ` followed by the error text, and still
invokes the audit logger, which (log channel configured) emits a record
embedding the original input text and that error text (truncated at the
transport bound) as the output — for both `/explain` and `/prompt`. -/
theorem C4_generation_error_replies_and_logs (s : Store) (uid : Int)
    (m i : String) (eArgs pArgs : List String) (msg ut pt e : String) (lc : Int)
    (hj : isJoined s uid = true)
    (hut : (if eArgs.isEmpty then msg else String.intercalate " " eArgs) = ut)
    (hut1 : ¬ut = "") (hut2 : ut.startsWith "/explain" = false)
    (hpt : String.intercalate " " pArgs = pt) (hpt1 : ¬pt = "")
    (hlc : lc ≠ 0) :
    (Effect.reply ("⚠️ Error: " ++ e)
        ∈ (explainHandler s uid m i eArgs msg (Except.error e) lc).2 ∧
      Effect.logEmit (logHead m i "explain" ++ ut ++ logTail (pyTake 3500 ("⚠️ Error: " ++ e)))
        ∈ (explainHandler s uid m i eArgs msg (Except.error e) lc).2) ∧
    (Effect.reply ("⚠️ Error: " ++ e)
        ∈ (promptHandler s uid m i pArgs (Except.error e) lc).2 ∧
      Effect.logEmit (logHead m i "prompt" ++ pt ++ logTail (pyTake 3500 ("⚠️ Error: " ++ e)))
        ∈ (promptHandler s uid m i pArgs (Except.error e) lc).2) := by
  have he : (explainHandler s uid m i eArgs msg (Except.error e) lc).2
      = Effect.genCall EXPLAIN_MODEL "You explain at multiple levels clearly."
          (build_explain_prompt ut)
        :: Effect.reply ("⚠️ Error: " ++ e)
        :: auditEffects lc m i "explain" ut ("⚠️ Error: " ++ e) := by
    unfold explainHandler
    rw [if_neg (by simp [hj])]
    dsimp only
    rw [hut, if_neg (by simp [hut1, hut2])]
    rfl
  have hp : (promptHandler s uid m i pArgs (Except.error e) lc).2
      = Effect.genCall PROMPT_MODEL
          "You are a world-class prompt engineer. Always return in the strict format."
          (build_prompt_refiner pt)
        :: Effect.reply ("⚠️ Error: " ++ e)
        :: auditEffects lc m i "prompt" pt ("⚠️ Error: " ++ e) := by
    unfold promptHandler
    rw [if_neg (by simp [hj])]
    dsimp only
    rw [hpt, if_neg hpt1]
    rfl
  rw [he, hp, auditEffects_ne_zero lc hlc, auditEffects_ne_zero lc hlc]
  simp

/-- C4 (witness): joined user 1 issues `/explain hi` and `/prompt idea`;
the generation API raises "boom"; log channel 1. -/
theorem C4_generation_error_replies_and_logs_witness :
    (Effect.reply ("⚠️ Error: " ++ "boom")
        ∈ (explainHandler [((1 : Int), true)] 1 "u" "1" ["hi"] "" (Except.error "boom") 1).2 ∧
      Effect.logEmit (logHead "u" "1" "explain" ++ "hi"
          ++ logTail (pyTake 3500 ("⚠️ Error: " ++ "boom")))
        ∈ (explainHandler [((1 : Int), true)] 1 "u" "1" ["hi"] "" (Except.error "boom") 1).2) ∧
    (Effect.reply ("⚠️ Error: " ++ "boom")
        ∈ (promptHandler [((1 : Int), true)] 1 "u" "1" ["idea"] (Except.error "boom") 1).2 ∧
      Effect.logEmit (logHead "u" "1" "prompt" ++ "idea"
          ++ logTail (pyTake 3500 ("⚠️ Error: " ++ "boom")))
        ∈ (promptHandler [((1 : Int), true)] 1 "u" "1" ["idea"] (Except.error "boom") 1).2) :=
  C4_generation_error_replies_and_logs [(1, true)] 1 "u" "1" ["hi"] ["idea"] "" "hi" "idea"
    "boom" 1 (by decide) rfl (by decide) (by decide) rfl (by decide) (by decide)

/-- C7: an allowed user invoking `/prompt` whose raw argument text is
empty or whitespace-only (so the platform's whitespace tokenisation
yields no args and `" ".join(context.args)` is empty) gets exactly the
usage-error reply: no generation call and no audit-log emission occur. -/
theorem C7_prompt_usage_error (s : Store) (uid : Int) (m i : String) (raw : String)
    (g : Except String String) (lc : Int)
    (hj : isJoined s uid = true)
    (hw : ∀ c ∈ raw.data, c.isWhitespace = true) :
    (promptHandler s uid m i (pySplit raw) g lc).2 = [Effect.reply promptUsageText] ∧
    (∀ mo sys p, Effect.genCall mo sys p ∉ (promptHandler s uid m i (pySplit raw) g lc).2) ∧
    (∀ t, Effect.logEmit t ∉ (promptHandler s uid m i (pySplit raw) g lc).2) := by
  have hargs : pySplit raw = [] := pySplit_whitespace raw hw
  have he : (promptHandler s uid m i (pySplit raw) g lc).2 = [Effect.reply promptUsageText] := by
    unfold promptHandler
    rw [if_neg (by simp [hj])]
    dsimp only
    rw [hargs]
    rw [if_pos (show String.intercalate " " ([] : List String) = "" from rfl)]
  refine ⟨he, ?_, ?_⟩
  · intro mo sys p hmem
    rw [he] at hmem
    simp at hmem
  · intro t hmem
    rw [he] at hmem
    simp at hmem

/-- C7 (witness): joined user 1 sends `/prompt` followed by three spaces. -/
theorem C7_prompt_usage_error_witness :
    (promptHandler [((1 : Int), true)] 1 "u" "1" (pySplit "   ") (Except.ok "a") 1).2
        = [Effect.reply promptUsageText] ∧
    (∀ mo sys p, Effect.genCall mo sys p
        ∉ (promptHandler [((1 : Int), true)] 1 "u" "1" (pySplit "   ") (Except.ok "a") 1).2) ∧
    (∀ t, Effect.logEmit t
        ∉ (promptHandler [((1 : Int), true)] 1 "u" "1" (pySplit "   ") (Except.ok "a") 1).2) :=
  C7_prompt_usage_error [(1, true)] 1 "u" "1" "   " (Except.ok "a") 1 (by decide) (by decide)

/-- C8: a broadcast issued by any identifier other than the configured
administrator yields exactly the authorization-denied reply: no user-list
fetch, no delivery attempts, and the User Store is unchanged. -/
theorem C8_broadcast_unauthorized (s : Store) (issuer adminId : Int)
    (args : List String) (d : Int → Bool) (h : issuer ≠ adminId) :
    (broadcastHandler s issuer adminId args d).2 = [Effect.reply notAuthorizedText] ∧
    (broadcastHandler s issuer adminId args d).1 = s ∧
    Effect.fetchUsers ∉ (broadcastHandler s issuer adminId args d).2 ∧
    (∀ u t, Effect.sendAttempt u t ∉ (broadcastHandler s issuer adminId args d).2) := by
  have he : (broadcastHandler s issuer adminId args d).2 = [Effect.reply notAuthorizedText] := by
    unfold broadcastHandler
    rw [if_pos h]
  have hs : (broadcastHandler s issuer adminId args d).1 = s := by
    unfold broadcastHandler
    rw [if_pos h]
  refine ⟨he, hs, ?_, ?_⟩
  · rw [he]
    simp
  · intro u t
    rw [he]
    simp

/-- C8 (witness): issuer 2, configured administrator 1. -/
theorem C8_broadcast_unauthorized_witness :
    (broadcastHandler [((7 : Int), true)] 2 1 ["hello"] (fun _ => true)).2
        = [Effect.reply notAuthorizedText] ∧
    (broadcastHandler [((7 : Int), true)] 2 1 ["hello"] (fun _ => true)).1
        = [((7 : Int), true)] ∧
    Effect.fetchUsers ∉ (broadcastHandler [((7 : Int), true)] 2 1 ["hello"] (fun _ => true)).2 ∧
    (∀ u t, Effect.sendAttempt u t
        ∉ (broadcastHandler [((7 : Int), true)] 2 1 ["hello"] (fun _ => true)).2) :=
  C8_broadcast_unauthorized [(7, true)] 2 1 ["hello"] (fun _ => true) (by decide)

/-- C5: an admin broadcast with non-empty message text over the stored
user list (duplicate-free by the table's primary key) attempts exactly
one delivery per listed identifier, which deliveries are attempted does
not depend on the per-recipient outcomes (a failure never aborts the
remaining deliveries — it is only counted), and the final reply reports
counters with `sent + failed = n`. -/
theorem C5_broadcast_fanout (s : Store) (adminId : Int) (args : List String)
    (d : Int → Bool) (hargs : ¬args.isEmpty = true)
    (hnodup : (getAllUsers s).Nodup) :
    ((broadcastHandler s adminId adminId args d).2.countP isSendAttempt
        = (getAllUsers s).length) ∧
    (∀ uid ∈ getAllUsers s,
        (broadcastHandler s adminId adminId args d).2.count
          (Effect.sendAttempt uid (String.intercalate " " args)) = 1) ∧
    Effect.reply (broadcastReport ((getAllUsers s).filter (fun u => d u)).length
        ((getAllUsers s).filter (fun u => !d u)).length)
      ∈ (broadcastHandler s adminId adminId args d).2 ∧
    (((getAllUsers s).filter (fun u => d u)).length
        + ((getAllUsers s).filter (fun u => !d u)).length = (getAllUsers s).length) ∧
    (∀ d' : Int → Bool,
        (broadcastHandler s adminId adminId args d').2.filter isSendAttempt
          = (broadcastHandler s adminId adminId args d).2.filter isSendAttempt) := by
  have he : ∀ d' : Int → Bool, (broadcastHandler s adminId adminId args d').2
      = Effect.fetchUsers
        :: (getAllUsers s).map (fun u => Effect.sendAttempt u (String.intercalate " " args))
        ++ [Effect.reply (broadcastReport ((getAllUsers s).filter (fun u => d' u)).length
            ((getAllUsers s).filter (fun u => !d' u)).length)] := by
    intro d'
    unfold broadcastHandler
    rw [if_neg (by simp), if_neg hargs]
  refine ⟨?_, ?_, ?_, ?_, ?_⟩
  · rw [he d]
    simp [List.countP_cons, List.countP_append, List.countP_map, isSendAttempt]
  · intro uid hm
    rw [he d]
    have hinj : Function.Injective
        (fun u => Effect.sendAttempt u (String.intercalate " " args)) := by
      intro x y hxy
      simpa using hxy
    simp [List.count_cons, List.count_append, List.count_singleton',
      List.count_map_of_injective _ _ hinj, List.count_eq_one_of_mem hnodup hm]
  · rw [he d]
    simp
  · exact (List.length_eq_length_filter_add (fun u => d u)).symm
  · intro d'
    rw [he d', he d]
    simp [isSendAttempt]

/-- C5 (witness): admin 1 broadcasts "hi there" to the three stored users
2, 3, 4, of whom user 3's delivery fails. -/
theorem C5_broadcast_fanout_witness :
    ((broadcastHandler [((2 : Int), true), (3, false), (4, true)] 1 1 ["hi", "there"]
        (fun u => !(u == 3))).2.countP isSendAttempt
        = (getAllUsers [((2 : Int), true), (3, false), (4, true)]).length) ∧
    (∀ uid ∈ getAllUsers [((2 : Int), true), (3, false), (4, true)],
        (broadcastHandler [((2 : Int), true), (3, false), (4, true)] 1 1 ["hi", "there"]
          (fun u => !(u == 3))).2.count
            (Effect.sendAttempt uid (String.intercalate " " ["hi", "there"])) = 1) ∧
    Effect.reply (broadcastReport
        ((getAllUsers [((2 : Int), true), (3, false), (4, true)]).filter
          (fun u => (fun u => !(u == 3)) u)).length
        ((getAllUsers [((2 : Int), true), (3, false), (4, true)]).filter
          (fun u => !(fun u => !(u == 3)) u)).length)
      ∈ (broadcastHandler [((2 : Int), true), (3, false), (4, true)] 1 1 ["hi", "there"]
          (fun u => !(u == 3))).2 ∧
    (((getAllUsers [((2 : Int), true), (3, false), (4, true)]).filter
        (fun u => (fun u => !(u == 3)) u)).length
      + ((getAllUsers [((2 : Int), true), (3, false), (4, true)]).filter
          (fun u => !(fun u => !(u == 3)) u)).length
      = (getAllUsers [((2 : Int), true), (3, false), (4, true)]).length) ∧
    (∀ d' : Int → Bool,
        (broadcastHandler [((2 : Int), true), (3, false), (4, true)] 1 1 ["hi", "there"]
          d').2.filter isSendAttempt
        = (broadcastHandler [((2 : Int), true), (3, false), (4, true)] 1 1 ["hi", "there"]
            (fun u => !(u == 3))).2.filter isSendAttempt) :=
  C5_broadcast_fanout [(2, true), (3, false), (4, true)] 1 ["hi", "there"]
    (fun u => !(u == 3)) (by decide) (by decide)

theorem nonLogEffects_append (l₁ l₂ : List Effect) :
    nonLogEffects (l₁ ++ l₂) = nonLogEffects l₁ ++ nonLogEffects l₂ :=
  List.filter_append l₁ l₂

theorem nonLogEffects_cons_genCall (mo sys p : String) (l : List Effect) :
    nonLogEffects (Effect.genCall mo sys p :: l)
      = Effect.genCall mo sys p :: nonLogEffects l := rfl

theorem nonLogEffects_cons_reply (t : String) (l : List Effect) :
    nonLogEffects (Effect.reply t :: l) = Effect.reply t :: nonLogEffects l := rfl

theorem pyTake_idem (n : Nat) (s : String) : pyTake n (pyTake n s) = pyTake n s := by
  unfold pyTake
  simp [List.take_take]

theorem explainHandler_nonLog (s : Store) (uid : Int) (m i : String)
    (args : List String) (msg : String) (g : Except String String) (lc₁ lc₂ : Int) :
    nonLogEffects (explainHandler s uid m i args msg g lc₁).2
      = nonLogEffects (explainHandler s uid m i args msg g lc₂).2 := by
  unfold explainHandler
  dsimp only
  split
  · rfl
  · cases g with
    | ok a =>
      dsimp only
      split
      all_goals split
      all_goals simp [nonLogEffects_append, nonLogEffects_cons_genCall, nonLogEffects_cons_reply, nonLogEffects_auditEffects]
    | error e =>
      dsimp only
      split
      all_goals split
      all_goals simp [nonLogEffects_append, nonLogEffects_cons_genCall, nonLogEffects_cons_reply, nonLogEffects_auditEffects]

theorem promptHandler_nonLog (s : Store) (uid : Int) (m i : String)
    (args : List String) (g : Except String String) (lc₁ lc₂ : Int) :
    nonLogEffects (promptHandler s uid m i args g lc₁).2
      = nonLogEffects (promptHandler s uid m i args g lc₂).2 := by
  unfold promptHandler
  dsimp only
  split
  · rfl
  · cases g with
    | ok a =>
      dsimp only
      split
      all_goals simp [nonLogEffects_append, nonLogEffects_cons_genCall, nonLogEffects_cons_reply, nonLogEffects_auditEffects]
    | error e =>
      dsimp only
      split
      all_goals simp [nonLogEffects_append, nonLogEffects_cons_genCall, nonLogEffects_cons_reply, nonLogEffects_auditEffects]

theorem logEmit_not_mem_explain_zero (s : Store) (uid : Int) (m i : String)
    (args : List String) (msg : String) (g : Except String String) (t' : String) :
    Effect.logEmit t' ∉ (explainHandler s uid m i args msg g 0).2 := by
  intro hmem
  cases hj : isJoined s uid with
  | false =>
    rw [explainHandler_denied s uid m i args msg g 0 hj] at hmem
    simp at hmem
  | true =>
    rcases explainHandler_joined_shape s uid m i args msg g 0 hj with hs | ⟨ut, ans, hs⟩ <;>
      rw [hs] at hmem
    · simp at hmem
    · rw [auditEffects_zero] at hmem
      simp at hmem

theorem logEmit_not_mem_prompt_zero (s : Store) (uid : Int) (m i : String)
    (args : List String) (g : Except String String) (t' : String) :
    Effect.logEmit t' ∉ (promptHandler s uid m i args g 0).2 := by
  intro hmem
  cases hj : isJoined s uid with
  | false =>
    rw [promptHandler_denied s uid m i args g 0 hj] at hmem
    simp at hmem
  | true =>
    rcases promptHandler_joined_shape s uid m i args g 0 hj with hs | ⟨ut, ans, hs⟩ <;>
      rw [hs] at hmem
    · simp at hmem
    · rw [auditEffects_zero] at hmem
      simp at hmem

/-- C10: with the log-channel value 0 (its unset default) `send_log`
returns immediately — no audit record is emitted for any command — while
the user-visible effects of the handlers are identical for every
log-channel value; with a non-zero log channel the emitted record embeds
the output truncated to its first 3500 characters (the emission depends
only on those characters) and the input text untruncated. -/
theorem C10_audit_logger (m i c t a : String) (lc lc₁ lc₂ : Int)
    (s : Store) (uid : Int) (args : List String) (msg : String)
    (g : Except String String)
    (hlc : lc ≠ 0) :
    sendLog 0 m i c t a = none ∧
    (∀ t', Effect.logEmit t' ∉ (explainHandler s uid m i args msg g 0).2) ∧
    (∀ t', Effect.logEmit t' ∉ (promptHandler s uid m i args g 0).2) ∧
    nonLogEffects (explainHandler s uid m i args msg g lc₁).2
      = nonLogEffects (explainHandler s uid m i args msg g lc₂).2 ∧
    nonLogEffects (promptHandler s uid m i args g lc₁).2
      = nonLogEffects (promptHandler s uid m i args g lc₂).2 ∧
    sendLog lc m i c t a = sendLog lc m i c t (pyTake 3500 a) ∧
    (∃ p q, sendLog lc m i c t a = some (p ++ t ++ q)) := by
  refine ⟨by simp [sendLog],
    logEmit_not_mem_explain_zero s uid m i args msg g,
    logEmit_not_mem_prompt_zero s uid m i args g,
    explainHandler_nonLog s uid m i args msg g lc₁ lc₂,
    promptHandler_nonLog s uid m i args g lc₁ lc₂, ?_, ?_⟩
  · unfold sendLog
    rw [if_neg hlc, if_neg hlc, pyTake_idem]
  · refine ⟨logHead m i c, logTail (pyTake 3500 a), ?_⟩
    unfold sendLog
    rw [if_neg hlc]

/-- C10 (witness): log channel 5 (and channels 0 and 9 for the
independence parts). -/
theorem C10_audit_logger_witness :
    sendLog 0 "u" "1" "explain" "in" "out" = none ∧
    (∀ t', Effect.logEmit t'
        ∉ (explainHandler [((1 : Int), true)] 1 "u" "1" ["x"] "" (Except.ok "a") 0).2) ∧
    (∀ t', Effect.logEmit t'
        ∉ (promptHandler [((1 : Int), true)] 1 "u" "1" ["x"] (Except.ok "a") 0).2) ∧
    nonLogEffects (explainHandler [((1 : Int), true)] 1 "u" "1" ["x"] "" (Except.ok "a") 0).2
      = nonLogEffects (explainHandler [((1 : Int), true)] 1 "u" "1" ["x"] "" (Except.ok "a") 9).2 ∧
    nonLogEffects (promptHandler [((1 : Int), true)] 1 "u" "1" ["x"] (Except.ok "a") 0).2
      = nonLogEffects (promptHandler [((1 : Int), true)] 1 "u" "1" ["x"] (Except.ok "a") 9).2 ∧
    sendLog 5 "u" "1" "explain" "in" "out"
      = sendLog 5 "u" "1" "explain" "in" (pyTake 3500 "out") ∧
    (∃ p q, sendLog 5 "u" "1" "explain" "in" "out" = some (p ++ "in" ++ q)) :=
  C10_audit_logger "u" "1" "explain" "in" "out" 5 0 9 [(1, true)] 1 ["x"] ""
    (Except.ok "a") (by decide)

end ExplainX
